import Mathlib

/-!
Verification of the FinancialAnalyzerCLI core against its specification.

This file shallowly embeds the pure core of the analyzer:
  - src/utils/constants.py    (FINANCIAL_ITEM_MAPPING)
  - src/data_extraction/mapper.py  (standardize_statements)
  - src/analysis/ratios.py    (safe division, single- and multi-period ratios)
  - src/analysis/verifier.py  (verify_financial_consistency)

Modelling conventions:
  - Python numeric values (int/float) are embedded as rationals; the
    tolerance constants 0.015, 0.01, 0.05, 0.02, -1e-6 of the source become
    the exact rationals 15/1000, 1/100, 5/100, 2/100, -(1/1000000).
  - A Python dict (and equally a pandas Series viewed as a key-value map,
    which the code only ever reads through .get) is an association list in
    insertion order with unique keys; assignment replaces in place or
    appends, lookup scans for the key.
  - A raw cell value is `Val`: a finite number, an NA (None / NaN / pd.NA,
    i.e. anything with pd.isna true), or a non-null value on which float()
    raises (ValueError/TypeError).
  - Code that can raise is mirrored a second time in the `Except` monad
    (suffix E) with each raise point an `Except.error` and each
    try/except of the source a catch; proving the E-version always returns
    `Except.ok` formalises "never raises".
-/

/-- A raw cell value as the analyzer classifies it: a finite numeric value,
an NA value (Python None, float NaN or pandas NA -- exactly the values on
which pd.isna is true), or a non-null value that float() cannot convert. -/
inductive Val where
  | num (q : ℚ)
  | na
  | text (s : String)
deriving DecidableEq, Repr

/-- pd.isna of a value. -/
def Val.isna : Val → Bool
  | .na => true
  | _ => false

/-- float(v) at the conversion sites of the code, as a partial function:
numeric values convert to themselves, non-convertible text raises (none).
Every conversion site in the source is guarded: verifier._get and
ratios._get test pd.isna before calling float, and the mapper only stores
values passing pd.notna into the raw bag (mapper.py line 73), so an NA
value never reaches float(); the na branch is unreachable there. -/
def Val.toFloat? : Val → Option ℚ
  | .num q => some q
  | .na => none
  | .text _ => none

/-- Python exception kinds relevant to the embedded code. -/
inductive PyExc where
  | typeError
  | valueError
  | keyError
deriving DecidableEq, Repr

/-- float(v) in the Except monad: ok on numerics, ValueError on
non-convertible text, TypeError on None. As with Val.toFloat?, the na
branch sits behind a pd.isna guard at every call site of the source. -/
def Val.toFloatE : Val → Except PyExc ℚ
  | .num q => .ok q
  | .na => .error .typeError
  | .text _ => .error .valueError

/-- A Python dict (insertion-ordered association list with unique keys). -/
abbrev PyDict (α : Type) := List (String × α)

/-- Python dict lookup d.get(k) / d[k]: scan for the key. -/
def dictGet {α : Type} : PyDict α → String → Option α
  | [], _ => none
  | p :: rest, k => if p.1 == k then some p.2 else dictGet rest k

/-- Python dict assignment d[k] = v: replace the existing entry for k in
place, or append a new entry at the end. A later assignment to the same
key OVERWRITES the earlier value. -/
def dictSet {α : Type} : PyDict α → String → α → PyDict α
  | [], k, v => [(k, v)]
  | p :: rest, k, v => if p.1 == k then (k, v) :: rest else p :: dictSet rest k v

/-- FINANCIAL_ITEM_MAPPING of src/utils/constants.py: the ordered canonical
vocabulary, standard key to ordered vendor synonym list. -/
def FINANCIAL_ITEM_MAPPING : List (String × List String) :=
  [("revenue", ["Total Revenue", "Revenue", "totalRevenue"]),
   ("cost_of_revenue", ["Cost Of Revenue", "Cost of Revenue", "costOfRevenue"]),
   ("gross_profit", ["Gross Profit", "grossProfit"]),
   ("research_development", ["Research Development", "researchDevelopmentExpense"]),
   ("selling_general_administrative", ["Selling General Administrative", "Selling General and Administrative", "sellingGeneralAdministrative", "sellingGeneralAndAdministrative"]),
   ("operating_expenses", ["Operating Expenses", "Total Operating Expenses", "totalOperatingExpenses", "OperatingExpenditures", "Total Operating Expenditures"]),
   ("operating_income", ["Operating Income", "Operating Income or Loss", "operatingIncome"]),
   ("interest_expense", ["Interest Expense", "interestExpense"]),
   ("income_before_tax", ["Income Before Tax", "Pretax Income", "incomeBeforeTax"]),
   ("income_tax_expense", ["Income Tax Expense", "Tax Provision", "incomeTaxExpense"]),
   ("net_income", ["Net Income", "Net Income Applicable To Common Shares", "netIncome", "netIncomeApplicableToCommonShares"]),
   ("cash", ["Cash", "Cash And Cash Equivalents", "cashAndCashEquivalents"]),
   ("accounts_receivable", ["Net Receivables", "Accounts Receivable"]),
   ("inventory", ["Inventory", "inventory"]),
   ("current_assets", ["Total Current Assets", "Current Assets", "totalCurrentAssets"]),
   ("property_plant_equipment", ["Property Plant Equipment Net", "Total Property Plant Equipment", "Property plant and equipment net"]),
   ("total_assets", ["Total Assets", "totalAssets"]),
   ("accounts_payable", ["Accounts Payable"]),
   ("short_term_debt", ["Short Long Term Debt", "Short Term Debt", "Current Debt", "Current Liabilities And Long Term Debt"]),
   ("current_liabilities", ["Total Current Liabilities", "Current Liabilities", "totalCurrentLiabilities"]),
   ("long_term_debt", ["Long Term Debt", "longTermDebt"]),
   ("total_liabilities", ["Total Liab", "Total Liabilities", "totalLiab", "Total Liabilities Net Minority Interest"]),
   ("common_stock", ["Common Stock", "commonStock"]),
   ("retained_earnings", ["Retained Earnings", "retainedEarnings"]),
   ("total_equity", ["Total Stockholder Equity", "Stockholders Equity", "Total Equity", "totalStockholderEquity"]),
   ("depreciation_amortization", ["Depreciation And Amortization", "Depreciation & Amortization", "Depreciation"]),
   ("operating_cash_flow", ["Total Cash From Operating Activities", "Cash Flow From Operating Activities", "totalCashFromOperatingActivities"]),
   ("capital_expenditures", ["Capital Expenditures", "capex"]),
   ("investing_cash_flow", ["Total Cashflows From Investing Activities", "Cash Flow From Investing Activities", "totalCashflowsFromInvestingActivities"]),
   ("dividends_paid", ["Dividends Paid", "dividendsPaid"]),
   ("issuance_of_stock", ["Issuance Of Stock", "Issuance of Common Stock"]),
   ("repurchase_of_stock", ["Repurchase Of Stock", "Repurchase of Common Stock", "Treasury Stock"]),
   ("financing_cash_flow", ["Total Cash From Financing Activities", "Cash Flow From Financing Activities", "totalCashFromFinancingActivities"]),
   ("change_in_cash", ["Change In Cash", "Net Change In Cash", "changeInCash"]),
   ("liabilities_and_equity", ["Total Liabilities And Stockholders Equity"])]

/-- A raw statement DataFrame after the mapper has coerced its columns to
a DatetimeIndex (mapper.py lines 41-51): a list of period columns, each
column the vendor label / cell value pairs in index order. Period
identifiers are the strftime "Y-m-d" strings the mapper keys periods by. -/
structure RawTable where
  cols : List (String × List (String × Val))
deriving DecidableEq, Repr

/-- pandas df.empty for a RawTable: no columns, or no rows. -/
def RawTable.isEmpty (t : RawTable) : Bool :=
  t.cols.isEmpty || t.cols.all (fun c => c.2.isEmpty)

/-- mapper.py lines 70-78: walk one period column and store every cell
passing pd.notna into the period's raw bag, by plain dict assignment. -/
def insertColValues (bag : PyDict Val) (vals : List (String × Val)) : PyDict Val :=
  vals.foldl (fun b pr => if pr.2.isna then b else dictSet b pr.1 pr.2) bag

/-- mapper.py lines 56-78: fold the period columns of one statement into
the accumulated period-to-raw-bag map; each period entry is created on
first sight (lines 64-65) and extended by insertColValues. -/
def processStatement (acc : PyDict (PyDict Val)) (t : RawTable) : PyDict (PyDict Val) :=
  t.cols.foldl (fun a c => dictSet a c.1 (insertColValues ((dictGet a c.1).getD []) c.2)) acc

/-- mapper.py lines 36-78: merge the statements (in dict iteration order,
skipping None/empty tables) into the raw-by-period map all_period_data. -/
def buildRawByPeriod (stmts : List (String × Option RawTable)) : PyDict (PyDict Val) :=
  stmts.foldl (fun acc s =>
    match s.2 with
    | none => acc
    | some t => if t.isEmpty then acc else processStatement acc t) []

/-- mapper.py lines 100-107: scan a synonym list in declared order and
return the first synonym present in the raw bag together with its value
(the loop breaks at the first membership hit). -/
def resolveFirst (bag : PyDict Val) : List String → Option (String × Val)
  | [] => none
  | k :: rest =>
    match dictGet bag k with
    | some v => some (k, v)
    | none => resolveFirst bag rest

/-- mapper.py lines 96-117 for one canonical key: resolve the first present
synonym, then attempt float conversion; a failed conversion leaves the
canonical item absent (the except branch at lines 113-117 skips the key,
it does not resume the synonym scan). -/
def canonValue (bag : PyDict Val) (syns : List String) : Option ℚ :=
  match resolveFirst bag syns with
  | none => none
  | some pr => Val.toFloat? pr.2

/-- mapper.py lines 93-119: the standardized dict of one period. The source
folds dictSet insertions over FINANCIAL_ITEM_MAPPING in declared order; as
the standard keys are distinct, each key is inserted at most once and the
result is the filterMap of canonValue over the mapping in order. -/
def standardizePeriod (bag : PyDict Val) : PyDict ℚ :=
  FINANCIAL_ITEM_MAPPING.filterMap
    (fun m => (canonValue bag m.2).map (fun q => (m.1, q)))

/-- mapper.py lines 86-122: per period, skip an empty raw bag (lines 90-91)
and record the standardized dict only when non-empty (lines 121-122). -/
def standardizedByPeriod (stmts : List (String × Option RawTable)) : List (String × PyDict ℚ) :=
  (buildRawByPeriod stmts).filterMap (fun p =>
    if p.2.isEmpty then none
    else
      let sd := standardizePeriod p.2
      if sd.isEmpty then none else some (p.1, sd))

/-- A statement slot is unusable when it is None or its table is empty. -/
def statementEmpty : Option RawTable → Bool
  | none => true
  | some t => t.isEmpty

/-- The standardized matrix, period-major: the period columns of the final
DataFrame in descending period order, each with its canonical item dict.
(The source transposes to item-major rows at mapper.py line 137; that is a
representation change only.) -/
abbrev StandardizedMatrix := List (String × PyDict ℚ)

/-- Insert one period column into a descending-ordered column list. -/
def insertDesc (x : String × PyDict ℚ) : List (String × PyDict ℚ) → List (String × PyDict ℚ)
  | [] => [x]
  | y :: ys => if y.1 ≤ x.1 then x :: y :: ys else y :: insertDesc x ys

/-- mapper.py line 136, sort_index(ascending=False): sort the period
columns descending. Periods are Y-m-d strings, for which lexicographic
string order coincides with chronological order. -/
def sortDescByPeriod (l : List (String × PyDict ℚ)) : List (String × PyDict ℚ) :=
  l.foldr insertDesc []

/-- mapper.py standardize_statements: None on no usable input (line 27-29),
None when no period data was extracted (lines 81-83), None when
standardization resolved nothing (lines 129-131), else the matrix of
non-empty standardized period columns sorted descending. -/
def standardize_statements (statements : Option (List (String × Option RawTable))) :
    Option StandardizedMatrix :=
  match statements with
  | none => none
  | some stmts =>
    if stmts.isEmpty || stmts.all (fun s => statementEmpty s.2) then none
    else if (buildRawByPeriod stmts).isEmpty then none
    else
      let sdp := standardizedByPeriod stmts
      if sdp.isEmpty then none
      else some (sortDescByPeriod sdp)

/-- ratios.py lines 7-32, _safe_division: None on an absent operand, None
on a zero denominator, else the quotient. The float() conversions at lines
24-25 are identities here because every caller passes values already
produced as floats by _get or by float arithmetic, so the except branch at
lines 30-32 is unreachable from this module. -/
def safe_division : Option ℚ → Option ℚ → Option ℚ
  | none, _ => none
  | _, none => none
  | some n, some d => if d = 0 then none else some (n / d)

/-- _safe_division in the Except monad: no operation inside it can raise
(see safe_division), so every branch is ok. -/
def safe_divisionE (n d : Option ℚ) : Except PyExc (Option ℚ) :=
  match n, d with
  | none, _ => Except.ok none
  | _, none => Except.ok none
  | some a, some b => if b = 0 then Except.ok none else Except.ok (some (a / b))

/-- The _get helper shared in shape by ratios.py lines 53-64 and
verifier.py lines 45-67: d.get(key) (None when the key is absent), then
the pd.isna test, then float(); every raise is caught and becomes None. -/
def getFloat (d : PyDict Val) (k : String) : Option ℚ :=
  match dictGet d k with
  | none => none
  | some v => if v.isna then none else v.toFloat?

/-- The _get helper in the Except monad: the try body with float() as the
only raise point, wrapped in the catch-alls of the source (TypeError,
ValueError, KeyError all return None). -/
def getFloatE (d : PyDict Val) (k : String) : Except PyExc (Option ℚ) :=
  let body : Except PyExc (Option ℚ) :=
    match dictGet d k with
    | none => Except.ok none
    | some v => if v.isna then Except.ok none else (Val.toFloatE v).map some
  match body with
  | Except.ok r => Except.ok r
  | Except.error _ => Except.ok none

/-- The composite pattern of ratios.py lines 108-110 (total debt) and
verifier.py lines 133-138 (R&D + SG&A): when at least one component is
present the sum treats the missing one as zero, when both are absent the
composite is absent. Python's x or 0.0 equals x when x is a present float
and 0.0 when x is None or 0.0, which is exactly getD 0. -/
def compositeSum2 : Option ℚ → Option ℚ → Option ℚ
  | none, none => none
  | a, b => some (a.getD 0 + b.getD 0)

/-- The 14 ratio names in the insertion order of ratios.py lines 91-132. -/
def ratioNames : List String :=
  ["Gross Margin", "Net Margin", "Operating Margin", "Current Ratio", "Quick Ratio",
   "Debt to Equity", "Liabilities to Equity", "Debt Ratio", "Return on Equity (ROE)",
   "Return on Assets (ROA)", "Return on Capital Employed (ROCE)", "Inventory Turnover",
   "Asset Turnover", "Receivable Turnover"]

/-- ratios.py line 137: the final cleanup keeps a value only when it is a
non-NA number; on rationals produced by safe_division this is the
identity on some and on none. -/
def cleanOpt : Option ℚ → Option ℚ
  | some q => some q
  | none => none

/-- ratios.py line 137 applied to the whole ratio dict. -/
def cleanRatios (l : PyDict (Option ℚ)) : PyDict (Option ℚ) :=
  l.map (fun p => (p.1, cleanOpt p.2))

/-- ratios.py lines 34-142, calculate_single_period_ratios: gather the
canonical inputs through _get, build the two composite intermediates and
the two difference intermediates, and emit the 14 ratios through
_safe_division, in source order. -/
def calculate_single_period_ratios (d : PyDict Val) : PyDict (Option ℚ) :=
  let gp := getFloat d "gross_profit"
  let rev := getFloat d "revenue"
  let ni := getFloat d "net_income"
  let oi := getFloat d "operating_income"
  let ca := getFloat d "current_assets"
  let cl := getFloat d "current_liabilities"
  let _cash := getFloat d "cash"
  let inv := getFloat d "inventory"
  let std := getFloat d "short_term_debt"
  let ltd := getFloat d "long_term_debt"
  let equity := getFloat d "total_equity"
  let liab := getFloat d "total_liabilities"
  let assets := getFloat d "total_assets"
  let cogs := getFloat d "cost_of_revenue"
  let ar := getFloat d "accounts_receivable"
  let quickNum : Option ℚ :=
    match ca, inv with
    | some a, some i => some (a - i)
    | _, _ => none
  let total_debt := compositeSum2 std ltd
  let capEmp : Option ℚ :=
    match assets, cl with
    | some a, some c => some (a - c)
    | _, _ => none
  cleanRatios
    [("Gross Margin", safe_division gp rev),
     ("Net Margin", safe_division ni rev),
     ("Operating Margin", safe_division oi rev),
     ("Current Ratio", safe_division ca cl),
     ("Quick Ratio", safe_division quickNum cl),
     ("Debt to Equity", safe_division total_debt equity),
     ("Liabilities to Equity", safe_division liab equity),
     ("Debt Ratio", safe_division total_debt assets),
     ("Return on Equity (ROE)", safe_division ni equity),
     ("Return on Assets (ROA)", safe_division ni assets),
     ("Return on Capital Employed (ROCE)", safe_division oi capEmp),
     ("Inventory Turnover", safe_division cogs inv),
     ("Asset Turnover", safe_division rev assets),
     ("Receivable Turnover", safe_division rev ar)]

/-- calculate_single_period_ratios in the Except monad: every value access
and every division runs with its raise points and catches explicit. -/
def calculate_single_period_ratiosE (d : PyDict Val) : Except PyExc (PyDict (Option ℚ)) := do
  let gp ← getFloatE d "gross_profit"
  let rev ← getFloatE d "revenue"
  let ni ← getFloatE d "net_income"
  let oi ← getFloatE d "operating_income"
  let ca ← getFloatE d "current_assets"
  let cl ← getFloatE d "current_liabilities"
  let _cash ← getFloatE d "cash"
  let inv ← getFloatE d "inventory"
  let std ← getFloatE d "short_term_debt"
  let ltd ← getFloatE d "long_term_debt"
  let equity ← getFloatE d "total_equity"
  let liab ← getFloatE d "total_liabilities"
  let assets ← getFloatE d "total_assets"
  let cogs ← getFloatE d "cost_of_revenue"
  let ar ← getFloatE d "accounts_receivable"
  let quickNum : Option ℚ :=
    match ca, inv with
    | some a, some i => some (a - i)
    | _, _ => none
  let total_debt := compositeSum2 std ltd
  let capEmp : Option ℚ :=
    match assets, cl with
    | some a, some c => some (a - c)
    | _, _ => none
  let r1 ← safe_divisionE gp rev
  let r2 ← safe_divisionE ni rev
  let r3 ← safe_divisionE oi rev
  let r4 ← safe_divisionE ca cl
  let r5 ← safe_divisionE quickNum cl
  let r6 ← safe_divisionE total_debt equity
  let r7 ← safe_divisionE liab equity
  let r8 ← safe_divisionE total_debt assets
  let r9 ← safe_divisionE ni equity
  let r10 ← safe_divisionE ni assets
  let r11 ← safe_divisionE oi capEmp
  let r12 ← safe_divisionE cogs inv
  let r13 ← safe_divisionE rev assets
  let r14 ← safe_divisionE rev ar
  return cleanRatios
    [("Gross Margin", r1), ("Net Margin", r2), ("Operating Margin", r3),
     ("Current Ratio", r4), ("Quick Ratio", r5), ("Debt to Equity", r6),
     ("Liabilities to Equity", r7), ("Debt Ratio", r8),
     ("Return on Equity (ROE)", r9), ("Return on Assets (ROA)", r10),
     ("Return on Capital Employed (ROCE)", r11), ("Inventory Turnover", r12),
     ("Asset Turnover", r13), ("Receivable Turnover", r14)]

/-- The ratio matrix, period-major: one ratio dict per period column. -/
abbrev RatioMatrix := List (String × PyDict (Option ℚ))

/-- A standardized matrix column handed to calculate_single_period_ratios:
the canonical floats of the period. (In pandas the column also carries NaN
cells for items only present in other periods; through .get plus the
pd.isna test those behave exactly like absent keys, so the partial dict is
behaviour-equivalent.) -/
def colToVals (c : PyDict ℚ) : PyDict Val :=
  c.map (fun p => (p.1, Val.num p.2))

/-- ratios.py lines 167-173, the loop body: compute the column's ratio
dict and record it when non-empty (a Python dict is truthy when it has
any entry). -/
def ratioStep (acc : PyDict (PyDict (Option ℚ))) (col : String × PyDict ℚ) :
    PyDict (PyDict (Option ℚ)) :=
  let r := calculate_single_period_ratios (colToVals col.2)
  if r.isEmpty then acc else dictSet acc col.1 r

/-- ratios.py lines 145-189, calculate_historical_ratios: None on a
None/empty input; else apply the single-period function to every column
(each result dict is non-empty, hence always recorded, lines 172-173) and
reindex to exactly the input's columns in the input's order (line 182),
a missing column becoming an all-NaN column. -/
def calculate_historical_ratios (m : Option StandardizedMatrix) : Option RatioMatrix :=
  match m with
  | none => none
  | some mat =>
    if mat.isEmpty then none
    else
      let allByPeriod := mat.foldl ratioStep []
      if allByPeriod.isEmpty then none
      else
        some (mat.map (fun col =>
          (col.1, (dictGet allByPeriod col.1).getD (ratioNames.map (fun n => (n, none))))))

/-- The numeric context a Failed entry carries: the mismatch data
(actual value, value computed from the identity; the reported diff is
their difference) or the negative cash amount. The source renders these
into the Failed(...) detail string. -/
inductive FailDetail where
  | mismatch (actual expected : ℚ)
  | negativeCash (cash : ℚ)
deriving DecidableEq, Repr

/-- One verifier entry: True, a Failed(detail) string, a Skipped string
naming the missing inputs, or the InputValidation failure the early
returns at verifier.py lines 29-41 produce. -/
inductive CheckResult where
  | passed
  | failed (detail : FailDetail)
  | skipped (missing : List String)
  | inputValidationFailed (msg : String)
deriving DecidableEq, Repr

/-- An entry is one of the three per-check outcomes (not the early-return
InputValidation marker). -/
def isCheckOutcome : CheckResult → Bool
  | .inputValidationFailed _ => false
  | _ => true

/-- math.isclose(a, b, rel_tol, abs_tol):
abs(a-b) <= max(rel_tol * max(abs(a), abs(b)), abs_tol). -/
def mathIsClose (a b rel abst : ℚ) : Bool :=
  decide (|a - b| ≤ max (rel * max |a| |b|) abst)

/-- The names of the missing components, in declared order (the source
collects the keys of the required dict whose value is None). -/
def missingOf (l : List (String × Option ℚ)) : List String :=
  (l.filter (fun p => p.2.isNone)).map Prod.fst

/-- verifier.py lines 70-92: Assets = Liabilities + Equity within 1.5%
relative tolerance, skipped naming the missing components otherwise. -/
def balanceSheetCheck (d : PyDict Val) : CheckResult :=
  let assets := getFloat d "total_assets"
  let liabs := getFloat d "total_liabilities"
  let equity := getFloat d "total_equity"
  match assets, liabs, equity with
  | some a, some l, some e =>
    if mathIsClose a (l + e) (15/1000) 0 then .passed
    else .failed (.mismatch a (l + e))
  | _, _, _ =>
    .skipped (missingOf [("Total Assets", assets), ("Total Liabilities", liabs),
                         ("Total Equity", equity)])

/-- verifier.py lines 94-102: cash at least -1e-6. -/
def cashCheck (d : PyDict Val) : CheckResult :=
  match getFloat d "cash" with
  | some c => if decide (-(1/1000000 : ℚ) ≤ c) then .passed else .failed (.negativeCash c)
  | none => .skipped ["Cash"]

/-- verifier.py lines 104-121: Gross Profit = Revenue - Cost of Revenue
within 1% relative tolerance. -/
def grossProfitCheck (d : PyDict Val) : CheckResult :=
  let revenue := getFloat d "revenue"
  let cogs := getFloat d "cost_of_revenue"
  let gp := getFloat d "gross_profit"
  match revenue, cogs, gp with
  | some r, some c, some g =>
    if mathIsClose g (r - c) (1/100) 0 then .passed
    else .failed (.mismatch g (r - c))
  | _, _, _ =>
    .skipped (missingOf [("Revenue", revenue), ("Cost of Revenue", cogs),
                         ("Gross Profit", gp)])

/-- verifier.py lines 123-157: Operating Income = Gross Profit - Operating
Expenses within 5% relative tolerance, where Operating Expenses is the
direct item or, failing that, R&D + SG&A with a missing component as zero
when the other is present. -/
def operatingIncomeCheck (d : PyDict Val) : CheckResult :=
  let gp := getFloat d "gross_profit"
  let opInc := getFloat d "operating_income"
  let opExTotal :=
    match getFloat d "operating_expenses" with
    | some v => some v
    | none =>
      compositeSum2 (getFloat d "research_development")
        (getFloat d "selling_general_administrative")
  match gp, opInc, opExTotal with
  | some g, some o, some ox =>
    if mathIsClose o (g - ox) (5/100) 0 then .passed
    else .failed (.mismatch o (g - ox))
  | _, _, _ =>
    let missing := missingOf [("Gross Profit", gp), ("Operating Income", opInc)]
    .skipped (if opExTotal.isNone
              then missing ++ ["Operating Expenses (Total or Components)"]
              else missing)

/-- verifier.py lines 159-176: Net Income = Income Before Tax - Income Tax
Expense within 1.5% relative tolerance. -/
def netIncomeCheck (d : PyDict Val) : CheckResult :=
  let ni := getFloat d "net_income"
  let ibt := getFloat d "income_before_tax"
  let tax := getFloat d "income_tax_expense"
  match ni, ibt, tax with
  | some n, some b, some t =>
    if mathIsClose n (b - t) (15/1000) 0 then .passed
    else .failed (.mismatch n (b - t))
  | _, _, _ =>
    .skipped (missingOf [("Net Income", ni), ("Income Before Tax", ibt),
                         ("Income Tax Expense", tax)])

/-- verifier.py lines 178-198: Change in Cash = Operating CF + Investing CF
+ Financing CF within 2% relative or 1000 absolute tolerance. -/
def cashFlowSumCheck (d : PyDict Val) : CheckResult :=
  let cc := getFloat d "change_in_cash"
  let ocf := getFloat d "operating_cash_flow"
  let icf := getFloat d "investing_cash_flow"
  let fcf := getFloat d "financing_cash_flow"
  match cc, ocf, icf, fcf with
  | some a, some o, some i, some f =>
    if mathIsClose a (o + i + f) (2/100) 1000 then .passed
    else .failed (.mismatch a (o + i + f))
  | _, _, _, _ =>
    .skipped (missingOf [("Change in Cash", cc), ("Operating CF", ocf),
                         ("Investing CF", icf), ("Financing CF", fcf)])

/-- The six check names in the insertion order of verifier.py. -/
def checkNames : List String :=
  ["BalanceSheetEq", "CashCheck", "GrossProfitCheck", "OperatingIncomeCheck",
   "NetIncomeCheck", "CashFlowSumCheck"]

/-- verifier.py verify_financial_consistency: the early returns for a None
or empty input (lines 29-41) yield the single InputValidation entry; any
other input yields the six check entries in insertion order. (The source
emits a slightly different InputValidation message for an empty Series
than for an empty dict; both are the same one-entry shape.) -/
def verify_financial_consistency (pd : Option (PyDict Val)) : List (String × CheckResult) :=
  match pd with
  | none => [("InputValidation",
              .inputValidationFailed "Failed: No data received for period.")]
  | some d =>
    if d.isEmpty then
      [("InputValidation",
        .inputValidationFailed "Failed: Empty data dictionary received.")]
    else
      [("BalanceSheetEq", balanceSheetCheck d),
       ("CashCheck", cashCheck d),
       ("GrossProfitCheck", grossProfitCheck d),
       ("OperatingIncomeCheck", operatingIncomeCheck d),
       ("NetIncomeCheck", netIncomeCheck d),
       ("CashFlowSumCheck", cashFlowSumCheck d)]

/-- The two-statement input in which the income and the balance statements
both report the vendor label Total Revenue for the period 2023-12-31, with
values 100 and 200 respectively. -/
def dupLabelStatements : List (String × Option RawTable) :=
  [("income", some ⟨[("2023-12-31", [("Total Revenue", Val.num 100)])]⟩),
   ("balance", some ⟨[("2023-12-31", [("Total Revenue", Val.num 200)])]⟩)]

section DictLemmas

variable {α : Type}

/-- Looking up the key just assigned returns the assigned value: the later
of two assignments to one key wins. -/
lemma dictGet_dictSet_self (d : PyDict α) (k : String) (v : α) :
    dictGet (dictSet d k v) k = some v := by
  induction d with
  | nil => simp [dictGet, dictSet]
  | cons p rest ih =>
    by_cases h : p.1 == k
    · simp [dictSet, h, dictGet]
    · simp [dictSet, h, dictGet, ih]

/-- Assignment never empties a dict. -/
lemma dictSet_ne_nil (d : PyDict α) (k : String) (v : α) : dictSet d k v ≠ [] := by
  cases d with
  | nil => simp [dictSet]
  | cons p rest =>
    by_cases h : p.1 == k <;> simp [dictSet, h]

/-- Every entry of an assigned dict is the new binding or an old entry. -/
lemma mem_dictSet {d : PyDict α} {k : String} {v : α} {e : String × α}
    (he : e ∈ dictSet d k v) : e = (k, v) ∨ e ∈ d := by
  induction d with
  | nil => simpa [dictSet] using he
  | cons p rest ih =>
    by_cases h : p.1 == k
    · simp only [dictSet, h, if_pos] at he
      rcases List.mem_cons.mp he with h1 | h1
      · exact Or.inl h1
      · exact Or.inr (List.mem_cons_of_mem _ h1)
    · simp only [dictSet, h] at he
      rcases List.mem_cons.mp he with h1 | h1
      · exact Or.inr (h1 ▸ List.mem_cons_self _ _)
      · rcases ih h1 with h2 | h2
        · exact Or.inl h2
        · exact Or.inr (List.mem_cons_of_mem _ h2)

/-- A successful lookup returns an entry of the dict. -/
lemma dictGet_mem {d : PyDict α} {k : String} {v : α}
    (h : dictGet d k = some v) : (k, v) ∈ d := by
  induction d with
  | nil => simp [dictGet] at h
  | cons p rest ih =>
    by_cases hk : p.1 == k
    · simp only [dictGet, hk, if_pos, Option.some.injEq] at h
      have : p = (k, v) := by
        obtain ⟨p1, p2⟩ := p
        simp only at hk h
        exact Prod.ext (by simpa using hk) (by simpa using h)
      exact this ▸ List.mem_cons_self _ _
    · simp only [dictGet, hk] at h
      exact List.mem_cons_of_mem _ (ih h)

/-- A lookup in a dict whose keys avoid k fails. -/
lemma dictGet_eq_none_of_not_mem {d : PyDict α} {k : String}
    (h : k ∉ d.map Prod.fst) : dictGet d k = none := by
  induction d with
  | nil => rfl
  | cons p rest ih =>
    simp only [List.map_cons, List.mem_cons] at h
    push_neg at h
    have : (p.1 == k) = false := by
      simpa [beq_iff_eq] using fun he => h.1 he.symm
    simp [dictGet, this, ih h.2]

end DictLemmas

/-- C3: the division rule of the ratio engine. An absent numerator, an
absent denominator, or a denominator of exactly zero makes the ratio
absent (never a number, so never infinity, NaN or zero); present operands
with a non-zero denominator give the exact quotient. -/
theorem safe_division_spec :
    (∀ d : Option ℚ, safe_division none d = none)
    ∧ (∀ n : Option ℚ, safe_division n none = none)
    ∧ (∀ n : Option ℚ, safe_division n (some 0) = none)
    ∧ (∀ a b : ℚ, b ≠ 0 → safe_division (some a) (some b) = some (a / b)) := by
  refine ⟨fun d => ?_, fun n => ?_, fun n => ?_, fun a b hb => ?_⟩
  · cases d <;> rfl
  · cases n <;> rfl
  · cases n <;> simp [safe_division]
  · simp [safe_division, hb]

/-- Witness for safe_division_spec at numerator 7, denominator 2. -/
theorem safe_division_spec_witness : safe_division (some 7) (some 2) = some (7 / 2) :=
  safe_division_spec.2.2.2 7 2 (by norm_num)

/-- C6: total debt is the sum of short- and long-term debt with a missing
component as zero when the other is present, absent when both are absent;
the Debt to Equity and Debt Ratio entries of the ratio engine divide
exactly this composite; with short_term_debt 50, long_term_debt absent and
equity 100 the Debt to Equity ratio is 1/2. -/
theorem total_debt_composite :
    (∀ a : ℚ, compositeSum2 (some a) none = some a)
    ∧ (∀ b : ℚ, compositeSum2 none (some b) = some b)
    ∧ (∀ a b : ℚ, compositeSum2 (some a) (some b) = some (a + b))
    ∧ compositeSum2 none none = none
    ∧ (∀ d : PyDict Val,
        dictGet (calculate_single_period_ratios d) "Debt to Equity"
          = some (cleanOpt (safe_division
              (compositeSum2 (getFloat d "short_term_debt") (getFloat d "long_term_debt"))
              (getFloat d "total_equity")))
        ∧ dictGet (calculate_single_period_ratios d) "Debt Ratio"
          = some (cleanOpt (safe_division
              (compositeSum2 (getFloat d "short_term_debt") (getFloat d "long_term_debt"))
              (getFloat d "total_assets"))))
    ∧ dictGet (calculate_single_period_ratios
        [("short_term_debt", Val.num 50), ("total_equity", Val.num 100)]) "Debt to Equity"
        = some (some (1 / 2)) := by
  refine ⟨fun a => by simp [compositeSum2], fun b => by simp [compositeSum2],
          fun a b => by simp [compositeSum2], rfl, fun d => ⟨rfl, rfl⟩, ?_⟩
  show some (cleanOpt (safe_division (compositeSum2 (some 50) none) (some 100)))
      = some (some (1 / 2))
  norm_num [compositeSum2, safe_division, cleanOpt]

/-- The cash-flow check on a vector holding exactly the four inputs
reduces to the combined-tolerance test. -/
lemma cashFlowSumCheck_eval (a o i f : ℚ) :
    cashFlowSumCheck
      [("change_in_cash", Val.num a), ("operating_cash_flow", Val.num o),
       ("investing_cash_flow", Val.num i), ("financing_cash_flow", Val.num f)]
      = if mathIsClose a (o + i + f) (2/100) 1000 then .passed
        else .failed (.mismatch a (o + i + f)) := rfl

/-- C7: with all four inputs present the cash-flow sum check passes exactly
when the difference is within 2 percent relative OR 1000 absolute
tolerance, the combined tolerance being max(rel*max(va,vb), abs); a change
of 100 against a component sum of 90 passes, a change of 100000 against a
component sum of 96000 fails. -/
theorem cashflow_tolerance :
    (∀ a o i f : ℚ,
      cashFlowSumCheck
        [("change_in_cash", Val.num a), ("operating_cash_flow", Val.num o),
         ("investing_cash_flow", Val.num i), ("financing_cash_flow", Val.num f)]
        = CheckResult.passed
      ↔ |a - (o + i + f)| ≤ max ((2/100) * max |a| |o + i + f|) 1000)
    ∧ cashFlowSumCheck
        [("change_in_cash", Val.num 100), ("operating_cash_flow", Val.num 30),
         ("investing_cash_flow", Val.num 30), ("financing_cash_flow", Val.num 30)]
        = CheckResult.passed
    ∧ cashFlowSumCheck
        [("change_in_cash", Val.num 100000), ("operating_cash_flow", Val.num 32000),
         ("investing_cash_flow", Val.num 32000), ("financing_cash_flow", Val.num 32000)]
        = CheckResult.failed (.mismatch 100000 96000) := by
  have key : ∀ a o i f : ℚ,
      cashFlowSumCheck
        [("change_in_cash", Val.num a), ("operating_cash_flow", Val.num o),
         ("investing_cash_flow", Val.num i), ("financing_cash_flow", Val.num f)]
        = CheckResult.passed
      ↔ |a - (o + i + f)| ≤ max ((2/100) * max |a| |o + i + f|) 1000 := by
    intro a o i f
    rw [cashFlowSumCheck_eval]
    rcases le_or_lt |a - (o + i + f)| (max ((2/100) * max |a| |o + i + f|) 1000) with h | h
    · simp [mathIsClose, h]
    · simp [mathIsClose, not_le.mpr h, h.not_le]
  refine ⟨key, ?_, ?_⟩
  · rw [key]
    norm_num [max_def, abs_of_nonneg]
  · rw [cashFlowSumCheck_eval]
    have : mathIsClose 100000 (32000 + 32000 + 32000) (2/100) 1000 = false := by
      simp only [mathIsClose, decide_eq_false_iff_not]
      norm_num [max_def, abs_of_nonneg]
    rw [this]
    norm_num

/-- C2 counterexample: merging dupLabelStatements records 200, the value of
the LAST statement processed, for (2023-12-31, Total Revenue) -- not 100,
the value of the first, as the claim states. -/
theorem raw_bag_first_wins_cex :
    dictGet ((dictGet (buildRawByPeriod dupLabelStatements) "2023-12-31").getD [])
        "Total Revenue" = some (Val.num 200)
    ∧ dictGet ((dictGet (buildRawByPeriod dupLabelStatements) "2023-12-31").getD [])
        "Total Revenue" ≠ some (Val.num 100) := by
  constructor
  · rfl
  · intro h
    have : (200 : ℚ) = 100 := by
      have := h
      simp only [show dictGet ((dictGet (buildRawByPeriod dupLabelStatements)
        "2023-12-31").getD []) "Total Revenue" = some (Val.num 200) from rfl,
        Option.some.injEq, Val.num.injEq] at this
      exact this
    norm_num at this

/-- C2 amended: when two statements emit the same vendor label for the same
period, the value recorded in the merged raw-by-period bag is the one from
the LAST statement processed (dict assignment overwrites). -/
theorem raw_bag_last_wins (p lbl : String) (v1 v2 : ℚ) :
    dictGet ((dictGet (buildRawByPeriod
      [("income", some ⟨[(p, [(lbl, Val.num v1)])]⟩),
       ("balance", some ⟨[(p, [(lbl, Val.num v2)])]⟩)]) p).getD []) lbl
      = some (Val.num v2) := by
  simp [buildRawByPeriod, processStatement, insertColValues, RawTable.isEmpty,
        Val.isna, dictGet, dictSet, List.foldl]

/-- The Except-monad _get never escapes an exception: the catch-alls of the
source turn every raise into an absent value. -/
lemma getFloatE_eq (d : PyDict Val) (k : String) :
    getFloatE d k = Except.ok (getFloat d k) := by
  unfold getFloatE getFloat
  cases h : dictGet d k with
  | none => rfl
  | some v => cases v <;> rfl

/-- The Except-monad division never escapes an exception. -/
lemma safe_divisionE_eq (n d : Option ℚ) :
    safe_divisionE n d = Except.ok (safe_division n d) := by
  cases n <;> cases d <;> try rfl
  rename_i a b
  by_cases hb : b = 0 <;> simp [safe_divisionE, safe_division, hb]

/-- C4: the single-period ratio computation never raises -- run with every
raise point and try/except explicit in the Except monad, it returns ok on
EVERY input vector, and the value is exactly the total function's result
(missing items, non-numeric values and zero denominators all having become
absent entries). -/
theorem ratios_never_raise (d : PyDict Val) :
    calculate_single_period_ratiosE d = Except.ok (calculate_single_period_ratios d) := by
  unfold calculate_single_period_ratiosE calculate_single_period_ratios
  simp only [getFloatE_eq, safe_divisionE_eq, bind, Except.bind, pure, Except.pure]

/-- Witness for ratios_never_raise at a concrete vector holding a numeric,
an NA and a non-convertible value. -/
theorem ratios_never_raise_witness :
    calculate_single_period_ratiosE
      [("revenue", Val.num 100), ("net_income", Val.na), ("total_assets", Val.text "oops")]
      = Except.ok (calculate_single_period_ratios
      [("revenue", Val.num 100), ("net_income", Val.na), ("total_assets", Val.text "oops")]) :=
  ratios_never_raise _

/-- The balance-sheet check always yields Passed, Failed or Skipped. -/
lemma balanceSheetCheck_outcome (d : PyDict Val) :
    isCheckOutcome (balanceSheetCheck d) = true := by
  rcases ha : getFloat d "total_assets" with _ | a <;>
  rcases hl : getFloat d "total_liabilities" with _ | l <;>
  rcases he : getFloat d "total_equity" with _ | e <;>
  simp only [balanceSheetCheck, ha, hl, he] <;> first | rfl | (split <;> rfl)

/-- The cash check always yields Passed, Failed or Skipped. -/
lemma cashCheck_outcome (d : PyDict Val) : isCheckOutcome (cashCheck d) = true := by
  rcases hc : getFloat d "cash" with _ | c <;>
  simp only [cashCheck, hc] <;> first | rfl | (split <;> rfl)

/-- The gross-profit check always yields Passed, Failed or Skipped. -/
lemma grossProfitCheck_outcome (d : PyDict Val) :
    isCheckOutcome (grossProfitCheck d) = true := by
  rcases hr : getFloat d "revenue" with _ | r <;>
  rcases hc : getFloat d "cost_of_revenue" with _ | c <;>
  rcases hg : getFloat d "gross_profit" with _ | g <;>
  simp only [grossProfitCheck, hr, hc, hg] <;> first | rfl | (split <;> rfl)

/-- The operating-income check always yields Passed, Failed or Skipped. -/
lemma operatingIncomeCheck_outcome (d : PyDict Val) :
    isCheckOutcome (operatingIncomeCheck d) = true := by
  unfold operatingIncomeCheck
  rcases hg : getFloat d "gross_profit" with _ | g <;>
  rcases ho : getFloat d "operating_income" with _ | o <;>
  rcases hx : (match getFloat d "operating_expenses" with
    | some v => some v
    | none =>
      compositeSum2 (getFloat d "research_development")
        (getFloat d "selling_general_administrative")) with _ | ox <;>
  simp only [hg, ho, hx] <;> first | rfl | (split <;> rfl)

/-- The net-income check always yields Passed, Failed or Skipped. -/
lemma netIncomeCheck_outcome (d : PyDict Val) :
    isCheckOutcome (netIncomeCheck d) = true := by
  rcases hn : getFloat d "net_income" with _ | n <;>
  rcases hb : getFloat d "income_before_tax" with _ | b <;>
  rcases ht : getFloat d "income_tax_expense" with _ | t <;>
  simp only [netIncomeCheck, hn, hb, ht] <;> first | rfl | (split <;> rfl)

/-- The cash-flow sum check always yields Passed, Failed or Skipped. -/
lemma cashFlowSumCheck_outcome (d : PyDict Val) :
    isCheckOutcome (cashFlowSumCheck d) = true := by
  rcases hc : getFloat d "change_in_cash" with _ | a <;>
  rcases ho : getFloat d "operating_cash_flow" with _ | o <;>
  rcases hi : getFloat d "investing_cash_flow" with _ | i <;>
  rcases hf : getFloat d "financing_cash_flow" with _ | f <;>
  simp only [cashFlowSumCheck, hc, ho, hi, hf] <;> first | rfl | (split <;> rfl)

/-- C1 counterexample: on a None input the verifier returns a single
InputValidation entry, not a six-entry report, and likewise on an empty
vector -- refuting the claim for the None and empty cases it includes. -/
theorem verifier_six_entries_cex :
    (verify_financial_consistency none).map Prod.fst = ["InputValidation"]
    ∧ (verify_financial_consistency none).map Prod.fst ≠ checkNames
    ∧ (verify_financial_consistency (some [])).map Prod.fst = ["InputValidation"]
    ∧ (verify_financial_consistency (some [])).length ≠ 6 := by
  refine ⟨rfl, ?_, rfl, by decide⟩
  intro h
  have := congrArg List.length h
  simp [verify_financial_consistency, checkNames] at this

/-- C1 amended: on every NON-empty input vector the verifier report has
exactly the six fixed check entries, in order BalanceSheetEq, CashCheck,
GrossProfitCheck, OperatingIncomeCheck, NetIncomeCheck, CashFlowSumCheck,
each Passed, Failed(detail) or Skipped(reason), and none omitted; a None
or empty input instead yields the single InputValidation failure entry. -/
theorem verifier_six_entries (d : PyDict Val) (h : d ≠ []) :
    (verify_financial_consistency (some d)).map Prod.fst = checkNames
    ∧ ∀ pr ∈ verify_financial_consistency (some d), isCheckOutcome pr.2 = true := by
  have hne : d.isEmpty = false := by
    cases d with
    | nil => exact absurd rfl h
    | cons p rest => rfl
  constructor
  · simp [verify_financial_consistency, hne, checkNames]
  · intro pr hpr
    simp only [verify_financial_consistency, hne, Bool.false_eq_true, if_false,
      List.mem_cons, List.not_mem_nil, or_false] at hpr
    rcases hpr with h1 | h1 | h1 | h1 | h1 | h1 <;> subst h1 <;>
      first
        | exact balanceSheetCheck_outcome d
        | exact cashCheck_outcome d
        | exact grossProfitCheck_outcome d
        | exact operatingIncomeCheck_outcome d
        | exact netIncomeCheck_outcome d
        | exact cashFlowSumCheck_outcome d

/-- Witness for verifier_six_entries at the one-item vector {cash: 5}. -/
theorem verifier_six_entries_witness :
    (verify_financial_consistency (some [("cash", Val.num 5)])).map Prod.fst = checkNames :=
  (verifier_six_entries [("cash", Val.num 5)] (by simp)).1

/-- The standard keys of the canonical vocabulary are pairwise distinct. -/
lemma mapping_keys_nodup : (FINANCIAL_ITEM_MAPPING.map Prod.fst).Nodup := by decide

/-- Looking up a key absent from the mapping segment in its standardized
filterMap fails. -/
lemma dictGet_filterMap_none (bag : PyDict Val) (L : List (String × List String))
    (k : String) (hk : k ∉ L.map Prod.fst) :
    dictGet (L.filterMap (fun m => (canonValue bag m.2).map (fun q => (m.1, q)))) k
      = none := by
  induction L with
  | nil => rfl
  | cons m t ih =>
    simp only [List.map_cons, List.mem_cons] at hk
    push_neg at hk
    have hne : (m.1 == k) = false := by
      simp only [beq_eq_false_iff_ne, ne_eq]
      exact fun he => hk.1 he.symm
    cases hc : canonValue bag m.2 with
    | none => simpa [List.filterMap_cons, hc] using ih hk.2
    | some q => simp [List.filterMap_cons, hc, dictGet, hne, ih hk.2]

/-- The standardized entry of a canonical key over a key-distinct mapping
segment is exactly that key's canonValue. -/
lemma dictGet_standardize_aux (bag : PyDict Val) :
    ∀ (L : List (String × List String)), (L.map Prod.fst).Nodup →
      ∀ k syns, (k, syns) ∈ L →
        dictGet (L.filterMap (fun m => (canonValue bag m.2).map (fun q => (m.1, q)))) k
          = canonValue bag syns := by
  intro L
  induction L with
  | nil => intro _ k syns h; simp at h
  | cons m t ih =>
    intro hnd k syns hmem
    rw [List.map_cons, List.nodup_cons] at hnd
    rcases List.mem_cons.mp hmem with h1 | h1
    · have hm1 : m.1 = k := by rw [← h1]
      have hm2 : m.2 = syns := by rw [← h1]
      cases hc : canonValue bag syns with
      | some q =>
        simp [List.filterMap_cons, hm2, hc, hm1, dictGet]
      | none =>
        rw [show (m :: t).filterMap (fun m => (canonValue bag m.2).map (fun q => (m.1, q)))
              = t.filterMap (fun m => (canonValue bag m.2).map (fun q => (m.1, q))) by
            simp [List.filterMap_cons, hm2, hc]]
        rw [dictGet_filterMap_none bag t k (hm1 ▸ hnd.1)]
    · have hkmem : k ∈ t.map Prod.fst :=
        List.mem_map.mpr ⟨(k, syns), h1, rfl⟩
      have hne : (m.1 == k) = false := by
        simp only [beq_eq_false_iff_ne, ne_eq]
        exact fun he => hnd.1 (he ▸ hkmem)
      cases hc : canonValue bag m.2 with
      | none => simpa [List.filterMap_cons, hc] using ih hnd.2 k syns h1
      | some q => simp [List.filterMap_cons, hc, dictGet, hne, ih hnd.2 k syns h1]

/-- Synonym resolution reads the bag only through lookups: two bags with
identical lookups resolve identically. -/
lemma resolveFirst_congr (bag bag' : PyDict Val)
    (h : ∀ j, dictGet bag j = dictGet bag' j) :
    ∀ syns, resolveFirst bag syns = resolveFirst bag' syns := by
  intro syns
  induction syns with
  | nil => rfl
  | cons s rest ih => simp only [resolveFirst, h s, ih]

/-- C5: for every period raw bag (well formed: no NA survives the notna
filter that builds it) and every canonical key of the vocabulary, the
standardized entry is exactly the conversion of the FIRST synonym present
in the bag in declared order -- a present head synonym wins outright, an
absent head defers to the rest, a resolved numeric first match becomes
the canonical value, and resolution depends only on bag lookups (not on
bag iteration order), never combining several matches. -/
theorem synonym_resolution_first_wins :
    (∀ (bag : PyDict Val) k syns, (∀ pr ∈ bag, pr.2.isna = false) →
        (k, syns) ∈ FINANCIAL_ITEM_MAPPING →
        dictGet (standardizePeriod bag) k = canonValue bag syns)
    ∧ (∀ (bag : PyDict Val) s rest v, dictGet bag s = some v →
        resolveFirst bag (s :: rest) = some (s, v))
    ∧ (∀ (bag : PyDict Val) s rest, dictGet bag s = none →
        resolveFirst bag (s :: rest) = resolveFirst bag rest)
    ∧ (∀ (bag : PyDict Val) k syns s q, (∀ pr ∈ bag, pr.2.isna = false) →
        (k, syns) ∈ FINANCIAL_ITEM_MAPPING →
        resolveFirst bag syns = some (s, Val.num q) →
        dictGet (standardizePeriod bag) k = some q)
    ∧ (∀ bag bag' : PyDict Val, (∀ j, dictGet bag j = dictGet bag' j) →
        standardizePeriod bag = standardizePeriod bag') := by
  have main : ∀ (bag : PyDict Val) k syns, (k, syns) ∈ FINANCIAL_ITEM_MAPPING →
      dictGet (standardizePeriod bag) k = canonValue bag syns := by
    intro bag k syns hmem
    exact dictGet_standardize_aux bag FINANCIAL_ITEM_MAPPING mapping_keys_nodup k syns hmem
  refine ⟨fun bag k syns _ hmem => main bag k syns hmem,
          fun bag s rest v h => by simp [resolveFirst, h],
          fun bag s rest h => by simp [resolveFirst, h],
          fun bag k syns s q _ hmem hres => ?_,
          fun bag bag' h => ?_⟩
  · rw [main bag k syns hmem]
    simp [canonValue, hres, Val.toFloat?]
  · unfold standardizePeriod
    have hcv : ∀ syns, canonValue bag syns = canonValue bag' syns := by
      intro syns
      simp only [canonValue, resolveFirst_congr bag bag' h syns]
    induction FINANCIAL_ITEM_MAPPING with
    | nil => rfl
    | cons m t ih => simp [List.filterMap_cons, hcv m.2, ih]

/-- Witness for synonym_resolution_first_wins at the spec's example bag
(Total Revenue 100, Revenue 200): canonical revenue resolves to 100. -/
theorem synonym_resolution_first_wins_witness :
    dictGet (standardizePeriod
      [("Total Revenue", Val.num 100), ("Revenue", Val.num 200)]) "revenue"
      = some 100 :=
  (synonym_resolution_first_wins.1
    [("Total Revenue", Val.num 100), ("Revenue", Val.num 200)]
    "revenue" ["Total Revenue", "Revenue", "totalRevenue"]
    (by decide) (by decide)).trans rfl

/-- C10: synonym fallback stops at presence, not at usability -- when the
first synonym present in the raw bag (the one resolution stops at) holds
a value float() cannot convert, the canonical item is left absent for the
period; the scan never resumes with later synonyms. -/
theorem nonconvertible_first_match_blocks (bag : PyDict Val) (k s t : String)
    (syns : List String) (hmem : (k, syns) ∈ FINANCIAL_ITEM_MAPPING)
    (hres : resolveFirst bag syns = some (s, Val.text t)) :
    dictGet (standardizePeriod bag) k = none := by
  have h1 : dictGet (standardizePeriod bag) k = canonValue bag syns :=
    dictGet_standardize_aux bag FINANCIAL_ITEM_MAPPING mapping_keys_nodup k syns hmem
  rw [h1]
  simp [canonValue, hres, Val.toFloat?]

/-- Witness for nonconvertible_first_match_blocks: the first synonym of
revenue is present but non-convertible while the second holds 200; the
canonical revenue is still absent. -/
theorem nonconvertible_first_match_blocks_witness :
    dictGet (standardizePeriod
      [("Total Revenue", Val.text "N/A"), ("Revenue", Val.num 200)]) "revenue"
      = none :=
  nonconvertible_first_match_blocks
    [("Total Revenue", Val.text "N/A"), ("Revenue", Val.num 200)]
    "revenue" "Total Revenue" "N/A" ["Total Revenue", "Revenue", "totalRevenue"]
    (by decide) (by decide)

/-- Inserting a column into the ordered column list keeps all entries. -/
lemma mem_insertDesc {y x : String × PyDict ℚ} :
    ∀ {l : List (String × PyDict ℚ)}, y ∈ insertDesc x l → y = x ∨ y ∈ l := by
  intro l
  induction l with
  | nil => intro h; simpa [insertDesc] using h
  | cons z zs ih =>
    intro h
    by_cases hz : z.1 ≤ x.1
    · simp only [insertDesc, if_pos hz, List.mem_cons] at h
      rcases h with h1 | h1
      · exact Or.inl h1
      · exact Or.inr (List.mem_cons.mpr h1)
    · simp only [insertDesc, if_neg hz, List.mem_cons] at h
      rcases h with h1 | h1
      · exact Or.inr (h1 ▸ List.mem_cons_self _ _)
      · rcases ih h1 with h2 | h2
        · exact Or.inl h2
        · exact Or.inr (List.mem_cons_of_mem _ h2)

/-- Sorting the period columns keeps all entries. -/
lemma mem_sortDescByPeriod {y : String × PyDict ℚ} :
    ∀ {l : List (String × PyDict ℚ)}, y ∈ sortDescByPeriod l → y ∈ l := by
  intro l
  induction l with
  | nil => intro h; simp [sortDescByPeriod] at h
  | cons z zs ih =>
    intro h
    rcases mem_insertDesc h with h1 | h1
    · exact h1 ▸ List.mem_cons_self _ _
    · exact List.mem_cons_of_mem _ (ih h1)

/-- Inserting a column grows the column list by one. -/
lemma insertDesc_length (x : String × PyDict ℚ) :
    ∀ l : List (String × PyDict ℚ), (insertDesc x l).length = l.length + 1 := by
  intro l
  induction l with
  | nil => rfl
  | cons z zs ih =>
    by_cases hz : z.1 ≤ x.1
    · simp [insertDesc, hz]
    · simp [insertDesc, hz, ih]

/-- Sorting preserves the number of period columns. -/
lemma sortDescByPeriod_length (l : List (String × PyDict ℚ)) :
    (sortDescByPeriod l).length = l.length := by
  induction l with
  | nil => rfl
  | cons z zs ih =>
    simp only [sortDescByPeriod, List.foldr_cons] at ih ⊢
    rw [insertDesc_length, ih, List.length_cons]

/-- Every column the per-period standardization emits carries a non-empty
canonical dict. -/
lemma standardizedByPeriod_cols_ne_nil {stmts : List (String × Option RawTable)}
    {c : String × PyDict ℚ} (hc : c ∈ standardizedByPeriod stmts) : c.2 ≠ [] := by
  unfold standardizedByPeriod at hc
  rcases List.mem_filterMap.mp hc with ⟨p, _, hf⟩
  by_cases hp : p.2.isEmpty
  · simp [hp] at hf
  · simp only [hp, Bool.false_eq_true, if_false] at hf
    by_cases hsd : (standardizePeriod p.2).isEmpty
    · simp [hsd] at hf
    · simp only [hsd, Bool.false_eq_true, if_false, Option.some.injEq] at hf
      have : c.2 = standardizePeriod p.2 := by rw [← hf]
      rw [this]
      intro hnil
      rw [hnil] at hsd
      exact hsd rfl

/-- C8: the normalizer returns an explicit null exactly where no usable
data exists -- on a None input, on an input whose statements are all
None/empty, and whenever nothing resolves across all periods and items --
and every non-null result is a non-empty matrix whose every column holds
at least one canonical item (never an empty-but-non-null structure). -/
theorem normalize_null_on_no_data :
    standardize_statements none = none
    ∧ (∀ stmts, (stmts.all fun s => statementEmpty s.2) →
        standardize_statements (some stmts) = none)
    ∧ (∀ stmts, standardizedByPeriod stmts = [] →
        standardize_statements (some stmts) = none)
    ∧ (∀ stmts m, standardize_statements (some stmts) = some m →
        m ≠ [] ∧ ∀ c ∈ m, c.2 ≠ []) := by
  refine ⟨rfl, fun stmts h => ?_, fun stmts h => ?_, fun stmts m h => ?_⟩
  · simp [standardize_statements, h]
  · simp [standardize_statements, h]
  · unfold standardize_statements at h
    by_cases h1 : stmts.isEmpty || stmts.all (fun s => statementEmpty s.2)
    · simp [h1] at h
    · simp only [h1, Bool.false_eq_true, if_false] at h
      by_cases h2 : (buildRawByPeriod stmts).isEmpty
      · simp [h2] at h
      · simp only [h2, Bool.false_eq_true, if_false] at h
        by_cases h3 : (standardizedByPeriod stmts).isEmpty
        · simp [h3] at h
        · simp only [h3, Bool.false_eq_true, if_false, Option.some.injEq] at h
          subst h
          constructor
          · intro hnil
            have := sortDescByPeriod_length (standardizedByPeriod stmts)
            rw [hnil] at this
            simp only [List.length_nil] at this
            have h4 : standardizedByPeriod stmts = [] := List.length_eq_zero.mp this.symm
            rw [h4] at h3
            exact h3 rfl
          · intro c hc
            exact standardizedByPeriod_cols_ne_nil (mem_sortDescByPeriod hc)

/-- Witness for normalize_null_on_no_data: an input whose three statement
slots are two Nones and one empty table normalizes to null. -/
theorem normalize_null_on_no_data_witness :
    standardize_statements
      (some [("income", none), ("balance", none), ("cashflow", some ⟨[]⟩)]) = none :=
  normalize_null_on_no_data.2.1 _ (by decide)

/-- The single-period ratio dict always carries exactly the 14 ratio names
as keys, in order. -/
lemma single_ratios_keys (d : PyDict Val) :
    (calculate_single_period_ratios d).map Prod.fst = ratioNames := rfl

/-- The single-period ratio dict is never empty (a 14-entry dict), so the
truthiness guard at ratios.py line 172 always records it. -/
lemma ratioStep_eq (acc : PyDict (PyDict (Option ℚ))) (col : String × PyDict ℚ) :
    ratioStep acc col = dictSet acc col.1 (calculate_single_period_ratios (colToVals col.2)) :=
  rfl

/-- The ratio fold keeps a non-empty accumulator non-empty. -/
lemma ratiosFold_ne_nil (mat : StandardizedMatrix) :
    ∀ acc, acc ≠ [] → mat.foldl ratioStep acc ≠ [] := by
  induction mat with
  | nil => intro acc h; simpa using h
  | cons col rest ih =>
    intro acc _
    simp only [List.foldl_cons]
    exact ih _ (ratioStep_eq acc col ▸ dictSet_ne_nil acc col.1 _)

/-- Every value the ratio fold stores is a single-period ratio dict, so its
keys are the 14 ratio names. -/
lemma ratiosFold_values (mat : StandardizedMatrix) :
    ∀ acc, (∀ e ∈ acc, e.2.map Prod.fst = ratioNames) →
      ∀ e ∈ mat.foldl ratioStep acc, e.2.map Prod.fst = ratioNames := by
  induction mat with
  | nil => intro acc h e he; exact h e he
  | cons col rest ih =>
    intro acc h e he
    simp only [List.foldl_cons] at he
    refine ih _ ?_ e he
    intro e' he'
    rw [ratioStep_eq] at he'
    rcases mem_dictSet he' with h1 | h1
    · rw [h1]
      exact single_ratios_keys _
    · exact h e' h1

/-- C9: on every non-empty standardized matrix the multi-period entry
returns a ratio matrix whose columns are EXACTLY the input's columns in
the input's order, every column carrying all 14 named ratios (possibly
all absent). -/
theorem historical_preserves_columns (mat : StandardizedMatrix) (h : mat ≠ []) :
    ∃ rm, calculate_historical_ratios (some mat) = some rm
      ∧ rm.map Prod.fst = mat.map Prod.fst
      ∧ ∀ c ∈ rm, c.2.map Prod.fst = ratioNames := by
  have hne : mat.isEmpty = false := by
    cases mat with
    | nil => exact absurd rfl h
    | cons col rest => rfl
  have hfold : mat.foldl ratioStep [] ≠ [] := by
    cases mat with
    | nil => exact absurd rfl h
    | cons col rest =>
      simp only [List.foldl_cons]
      exact ratiosFold_ne_nil rest _ (ratioStep_eq [] col ▸ dictSet_ne_nil [] col.1 _)
  have hfoldE : (mat.foldl ratioStep []).isEmpty = false := by
    cases hm : mat.foldl ratioStep [] with
    | nil => exact absurd hm hfold
    | cons a t => rfl
  refine ⟨mat.map (fun col =>
      (col.1, (dictGet (mat.foldl ratioStep []) col.1).getD (ratioNames.map (fun n => (n, none))))),
    ?_, ?_, ?_⟩
  · simp only [calculate_historical_ratios, hne, Bool.false_eq_true, if_false, hfoldE]
  · rw [List.map_map]
    rfl
  · intro c hc
    rcases List.mem_map.mp hc with ⟨col, _, hcol⟩
    rw [← hcol]
    cases hd : dictGet (mat.foldl ratioStep []) col.1 with
    | none =>
      simp only [Option.getD_none, List.map_map]
      rfl
    | some r =>
      simp only [Option.getD_some]
      exact ratiosFold_values mat [] (by simp) _ (dictGet_mem hd)

/-- Witness for historical_preserves_columns at a one-column matrix. -/
theorem historical_preserves_columns_witness :
    ∃ rm, calculate_historical_ratios (some [("2023-12-31", [("revenue", (100 : ℚ))])]) = some rm
      ∧ rm.map Prod.fst = [("2023-12-31", [("revenue", (100 : ℚ))])].map Prod.fst
      ∧ ∀ c ∈ rm, c.2.map Prod.fst = ratioNames :=
  historical_preserves_columns [("2023-12-31", [("revenue", (100 : ℚ))])] (by simp)
